import Mathlib

/-!
Verification development for the nicotine-plus core slice
(src/pynicotine/core.py and src/pynicotine/gtkgui/dialogs/fastconfigure.py).

The Python code is shallowly embedded: the message classes appearing in
Core.start's message_callbacks dictionary become an enumeration MsgClass,
the handler values (bound methods of Core and its collaborators) become an
enumeration Handler, the dictionary itself becomes the total function
message_callbacks returning Option Handler (a missing key, which raises
KeyError in Python, is the none case), and the stateful methods become
explicit state-passing functions.  Handler bodies belong to collaborator
subsystems that are out of scope; a handler invocation is recorded as an
Event in a trace, and its only possible effect on the dispatch loop, namely
flipping the shutdown flag by calling Core.quit, is abstracted by an
effect parameter eff.
-/

namespace NicotinePlus

/-- Message classes: the keys of Core.start's message_callbacks dictionary
(core.py lines 184-295), in source order, followed by the slskmessages
classes that core.py uses as outbound commands but never registers as
callback keys (ServerConnect, SendNetworkMessage, SetStatus,
GivePrivileges).  Only the class identity matters for dispatch. -/
inductive MsgClass
  | ServerDisconnect
  | Login
  | ChangePassword
  | MessageUser
  | PMessageUser
  | ExactFileSearch
  | RoomAdded
  | RoomRemoved
  | UserJoinedRoom
  | SayChatroom
  | JoinRoom
  | UserLeftRoom
  | CantCreateRoom
  | QueuedDownloads
  | GetPeerAddress
  | UserInfoReply
  | UserInfoRequest
  | PierceFireWall
  | ConnectToPeer
  | CantConnectToPeer
  | PeerMessageProgress
  | SharedFileList
  | GetSharedFileList
  | FileSearchRequest
  | FileSearchResult
  | GetUserStatus
  | GetUserStats
  | Relogged
  | PeerInit
  | DownloadFile
  | UploadFile
  | FileDownloadInit
  | FileUploadInit
  | FileOffset
  | TransferRequest
  | TransferResponse
  | QueueUpload
  | UploadDenied
  | UploadFailed
  | PlaceInQueue
  | DownloadFileError
  | UploadFileError
  | DownloadConnectionClosed
  | UploadConnectionClosed
  | PeerConnectionClosed
  | FolderContentsResponse
  | FolderContentsRequest
  | RoomList
  | LeaveRoom
  | GlobalUserList
  | AddUser
  | PrivilegedUsers
  | AddToPrivileged
  | CheckPrivileges
  | ServerPing
  | ParentMinSpeed
  | ParentSpeedRatio
  | ParentInactivityTimeout
  | SearchInactivityTimeout
  | MinParentsInCache
  | WishlistInterval
  | DistribAliveInterval
  | DistribChildDepth
  | DistribBranchLevel
  | DistribBranchRoot
  | AdminMessage
  | TunneledMessage
  | PlaceholdUpload
  | PlaceInQueueRequest
  | UploadQueueNotification
  | FileSearch
  | RoomSearch
  | UserSearch
  | RelatedSearch
  | PossibleParents
  | DistribAlive
  | DistribSearch
  | ResetDistributed
  | ServerTimeout
  | SetConnectionStats
  | GlobalRecommendations
  | Recommendations
  | ItemRecommendations
  | SimilarUsers
  | ItemSimilarUsers
  | UserInterests
  | RoomTickerState
  | RoomTickerAdd
  | RoomTickerRemove
  | UserPrivileged
  | AckNotifyPrivileges
  | NotifyPrivileges
  | PrivateRoomUsers
  | PrivateRoomOwned
  | PrivateRoomAddUser
  | PrivateRoomRemoveUser
  | PrivateRoomAdded
  | PrivateRoomRemoved
  | PrivateRoomDisown
  | PrivateRoomToggle
  | PrivateRoomSomething
  | PrivateRoomOperatorAdded
  | PrivateRoomOperatorRemoved
  | PrivateRoomAddOperator
  | PrivateRoomRemoveOperator
  | PublicRoomMessage
  | ShowConnectionErrorMessage
  | CLICommand
  | SchedulerCallback
  | UnknownPeerMessage
  | ServerConnect
  | SendNetworkMessage
  | SetStatus
  | GivePrivileges
deriving DecidableEq, Repr

/-- Handler identities: the values of the message_callbacks dictionary.
Each constructor names the bound method stored in the dictionary, with the
attribute path flattened (self.privatechat.message_user becomes
privatechat_message_user, and so on). -/
inductive Handler
  | server_disconnect
  | login
  | change_password
  | privatechat_message_user
  | privatechat_p_message_user
  | dummy_message
  | chatrooms_user_joined_room
  | chatrooms_say_chat_room
  | chatrooms_join_room
  | chatrooms_user_left_room
  | get_peer_address
  | userinfo_user_info_reply
  | userinfo_user_info_request
  | connect_to_peer
  | peer_message_progress
  | userbrowse_shared_file_list
  | shares_get_shared_file_list
  | search_file_search_result
  | get_user_status
  | get_user_stats
  | transfers_file_download
  | transfers_file_upload
  | transfers_file_download_init
  | transfers_file_upload_init
  | transfers_transfer_request
  | transfers_transfer_response
  | transfers_queue_upload
  | transfers_upload_denied
  | transfers_upload_failed
  | transfers_place_in_queue
  | transfers_download_file_error
  | transfers_upload_file_error
  | transfers_download_connection_closed
  | transfers_upload_connection_closed
  | peer_connection_closed
  | transfers_folder_contents_response
  | shares_folder_contents_request
  | chatrooms_room_list
  | chatrooms_leave_room
  | add_user
  | privileged_users
  | add_to_privileged
  | check_privileges
  | search_set_wishlist_interval
  | admin_message
  | transfers_place_in_queue_request
  | search_search_request
  | search_distrib_search
  | server_timeout
  | set_connection_stats
  | interests_global_recommendations
  | interests_recommendations
  | interests_item_recommendations
  | interests_similar_users
  | interests_item_similar_users
  | userinfo_user_interests
  | chatrooms_ticker_set
  | chatrooms_ticker_add
  | chatrooms_ticker_remove
  | chatrooms_private_room_users
  | chatrooms_private_room_owned
  | chatrooms_private_room_add_user
  | chatrooms_private_room_remove_user
  | chatrooms_private_room_added
  | chatrooms_private_room_removed
  | chatrooms_private_room_disown
  | chatrooms_private_room_toggle
  | chatrooms_private_room_operator_added
  | chatrooms_private_room_operator_removed
  | chatrooms_private_room_add_operator
  | chatrooms_private_room_remove_operator
  | chatrooms_public_room_message
  | show_connection_error_message
  | cli_command
  | scheduler_callback
deriving DecidableEq, Repr, Inhabited

/-- The message_callbacks dictionary built in Core.start (core.py lines
184-295), entry for entry in source order.  A Python dict lookup that
raises KeyError is the none case here. -/
def message_callbacks : MsgClass → Option Handler
  | .ServerDisconnect => some .server_disconnect
  | .Login => some .login
  | .ChangePassword => some .change_password
  | .MessageUser => some .privatechat_message_user
  | .PMessageUser => some .privatechat_p_message_user
  | .ExactFileSearch => some .dummy_message
  | .RoomAdded => some .dummy_message
  | .RoomRemoved => some .dummy_message
  | .UserJoinedRoom => some .chatrooms_user_joined_room
  | .SayChatroom => some .chatrooms_say_chat_room
  | .JoinRoom => some .chatrooms_join_room
  | .UserLeftRoom => some .chatrooms_user_left_room
  | .CantCreateRoom => some .dummy_message
  | .QueuedDownloads => some .dummy_message
  | .GetPeerAddress => some .get_peer_address
  | .UserInfoReply => some .userinfo_user_info_reply
  | .UserInfoRequest => some .userinfo_user_info_request
  | .PierceFireWall => some .dummy_message
  | .ConnectToPeer => some .connect_to_peer
  | .CantConnectToPeer => some .dummy_message
  | .PeerMessageProgress => some .peer_message_progress
  | .SharedFileList => some .userbrowse_shared_file_list
  | .GetSharedFileList => some .shares_get_shared_file_list
  | .FileSearchRequest => some .dummy_message
  | .FileSearchResult => some .search_file_search_result
  | .GetUserStatus => some .get_user_status
  | .GetUserStats => some .get_user_stats
  | .Relogged => some .dummy_message
  | .PeerInit => some .dummy_message
  | .DownloadFile => some .transfers_file_download
  | .UploadFile => some .transfers_file_upload
  | .FileDownloadInit => some .transfers_file_download_init
  | .FileUploadInit => some .transfers_file_upload_init
  | .FileOffset => some .dummy_message
  | .TransferRequest => some .transfers_transfer_request
  | .TransferResponse => some .transfers_transfer_response
  | .QueueUpload => some .transfers_queue_upload
  | .UploadDenied => some .transfers_upload_denied
  | .UploadFailed => some .transfers_upload_failed
  | .PlaceInQueue => some .transfers_place_in_queue
  | .DownloadFileError => some .transfers_download_file_error
  | .UploadFileError => some .transfers_upload_file_error
  | .DownloadConnectionClosed => some .transfers_download_connection_closed
  | .UploadConnectionClosed => some .transfers_upload_connection_closed
  | .PeerConnectionClosed => some .peer_connection_closed
  | .FolderContentsResponse => some .transfers_folder_contents_response
  | .FolderContentsRequest => some .shares_folder_contents_request
  | .RoomList => some .chatrooms_room_list
  | .LeaveRoom => some .chatrooms_leave_room
  | .GlobalUserList => some .dummy_message
  | .AddUser => some .add_user
  | .PrivilegedUsers => some .privileged_users
  | .AddToPrivileged => some .add_to_privileged
  | .CheckPrivileges => some .check_privileges
  | .ServerPing => some .dummy_message
  | .ParentMinSpeed => some .dummy_message
  | .ParentSpeedRatio => some .dummy_message
  | .ParentInactivityTimeout => some .dummy_message
  | .SearchInactivityTimeout => some .dummy_message
  | .MinParentsInCache => some .dummy_message
  | .WishlistInterval => some .search_set_wishlist_interval
  | .DistribAliveInterval => some .dummy_message
  | .DistribChildDepth => some .dummy_message
  | .DistribBranchLevel => some .dummy_message
  | .DistribBranchRoot => some .dummy_message
  | .AdminMessage => some .admin_message
  | .TunneledMessage => some .dummy_message
  | .PlaceholdUpload => some .dummy_message
  | .PlaceInQueueRequest => some .transfers_place_in_queue_request
  | .UploadQueueNotification => some .dummy_message
  | .FileSearch => some .search_search_request
  | .RoomSearch => some .search_search_request
  | .UserSearch => some .search_search_request
  | .RelatedSearch => some .dummy_message
  | .PossibleParents => some .dummy_message
  | .DistribAlive => some .dummy_message
  | .DistribSearch => some .search_distrib_search
  | .ResetDistributed => some .dummy_message
  | .ServerTimeout => some .server_timeout
  | .SetConnectionStats => some .set_connection_stats
  | .GlobalRecommendations => some .interests_global_recommendations
  | .Recommendations => some .interests_recommendations
  | .ItemRecommendations => some .interests_item_recommendations
  | .SimilarUsers => some .interests_similar_users
  | .ItemSimilarUsers => some .interests_item_similar_users
  | .UserInterests => some .userinfo_user_interests
  | .RoomTickerState => some .chatrooms_ticker_set
  | .RoomTickerAdd => some .chatrooms_ticker_add
  | .RoomTickerRemove => some .chatrooms_ticker_remove
  | .UserPrivileged => some .dummy_message
  | .AckNotifyPrivileges => some .dummy_message
  | .NotifyPrivileges => some .dummy_message
  | .PrivateRoomUsers => some .chatrooms_private_room_users
  | .PrivateRoomOwned => some .chatrooms_private_room_owned
  | .PrivateRoomAddUser => some .chatrooms_private_room_add_user
  | .PrivateRoomRemoveUser => some .chatrooms_private_room_remove_user
  | .PrivateRoomAdded => some .chatrooms_private_room_added
  | .PrivateRoomRemoved => some .chatrooms_private_room_removed
  | .PrivateRoomDisown => some .chatrooms_private_room_disown
  | .PrivateRoomToggle => some .chatrooms_private_room_toggle
  | .PrivateRoomSomething => some .dummy_message
  | .PrivateRoomOperatorAdded => some .chatrooms_private_room_operator_added
  | .PrivateRoomOperatorRemoved => some .chatrooms_private_room_operator_removed
  | .PrivateRoomAddOperator => some .chatrooms_private_room_add_operator
  | .PrivateRoomRemoveOperator => some .chatrooms_private_room_remove_operator
  | .PublicRoomMessage => some .chatrooms_public_room_message
  | .ShowConnectionErrorMessage => some .show_connection_error_message
  | .CLICommand => some .cli_command
  | .SchedulerCallback => some .scheduler_callback
  | .UnknownPeerMessage => some .dummy_message
  | .ServerConnect => none
  | .SendNetworkMessage => none
  | .SetStatus => none
  | .GivePrivileges => none

/-- A delivered message instance: its Python class plus an identity tag so
that two distinct instances of the same class stay distinguishable (the
handler receives the message object itself as argument). -/
structure Msg where
  cls : MsgClass
  uid : Nat
deriving DecidableEq, Repr

/-- Observable events of one run of Core.process_thread_callback: a handler
invocation with the message as argument, or the log.add diagnostic emitted
when the dictionary lookup raises KeyError (core.py line 480). -/
inductive Event
  | handled (h : Handler) (m : Msg)
  | no_handler_logged (m : Msg)
deriving DecidableEq, Repr

/-- The for-loop of Core.process_thread_callback (core.py lines 472-480).
Arguments: eff abstracts the only effect a handler body can have on this
loop, namely updating the shutdown flag (for instance a SchedulerCallback
whose callback invokes Core.quit); the Bool argument is the current
shutdown flag.  Returns the event trace, the final shutdown flag, and
whether the loop ran to completion (false when the early return on
shutdown fired, in which case msgs.clear() on line 482 is not reached). -/
def process_loop (eff : Handler → Msg → Bool → Bool) :
    Bool → List Msg → List Event × Bool × Bool
  | shutdown, [] => ([], shutdown, true)
  | shutdown, m :: rest =>
    if shutdown then ([], shutdown, false)
    else
      match message_callbacks m.cls with
      | some h =>
          let r := process_loop eff (eff h m shutdown) rest
          (Event.handled h m :: r.1, r.2.1, r.2.2)
      | none =>
          let r := process_loop eff shutdown rest
          (Event.no_handler_logged m :: r.1, r.2.1, r.2.2)

/-- Core.process_thread_callback (core.py lines 470-482): run the loop,
then clear the batch container, unless the early return on shutdown fired
before the last message, in which case the batch is left as it was.
Returns the event trace, the final shutdown flag, and the contents of the
batch container after the call. -/
def process_thread_callback (eff : Handler → Msg → Bool → Bool)
    (shutdown : Bool) (msgs : List Msg) : List Event × Bool × List Msg :=
  let r := process_loop eff shutdown msgs
  (r.1, r.2.1, if r.2.2 then [] else msgs)

/-- The dispatch of a single message when the shutdown flag is unset: the
registered handler is invoked, or the KeyError diagnostic is logged. -/
def dispatch_event (m : Msg) : Event :=
  match message_callbacks m.cls with
  | some h => Event.handled h m
  | none => Event.no_handler_logged m

/-- Which Core components have been initialised (each is None in
Core.__init__ and set by init_components / start); Core.quit guards each
cleanup step on its component being present. -/
structure CoreQuitState where
  shutdown : Bool
  has_pluginhandler : Bool
  has_protothread : Bool
  has_transfers : Bool
  has_shares : Bool
  has_ui_callback : Bool
deriving DecidableEq, Repr

/-- The externally visible steps of Core.quit (core.py lines 305-340), in
source order. -/
inductive QuitAction
  | log_quitting
  | pluginhandler_quit
  | protothread_abort
  | server_disconnect_call
  | transfers_quit
  | shares_quit
  | ui_callback_quit
  | log_quit_done
  | close_log_files
deriving DecidableEq, Repr

/-- Core.quit (core.py lines 305-340): set the shutdown flag, then run the
component cleanup steps in order; if the networking thread exists it is
aborted and a server_disconnect notification is synthesized by calling
Core.server_disconnect directly. -/
def quit (s : CoreQuitState) : CoreQuitState × List QuitAction :=
  ({ s with shutdown := true },
    [QuitAction.log_quitting]
      ++ (if s.has_pluginhandler then [QuitAction.pluginhandler_quit] else [])
      ++ (if s.has_protothread then
            [QuitAction.protothread_abort, QuitAction.server_disconnect_call] else [])
      ++ (if s.has_transfers then [QuitAction.transfers_quit] else [])
      ++ (if s.has_shares then [QuitAction.shares_quit] else [])
      ++ (if s.has_ui_callback then [QuitAction.ui_callback_quit] else [])
      ++ [QuitAction.log_quit_done, QuitAction.close_log_files])

/-- A server address as stored in config.sections, a (host, port) pair. -/
def Addr := String × Nat
deriving instance DecidableEq, Repr for Addr

/-- Outbound commands appended to Core.queue by the action methods of
core.py.  Each constructor is an slskmessages class with the fields the
source passes to it. -/
inductive QueueCmd
  | ServerConnect (addr : Addr) (login : String × String)
  | ServerDisconnect
  | SendNetworkMessage (user : String)
  | ChangePassword (password : String)
  | CheckPrivileges
  | GivePrivileges (user : String) (days : Nat)
  | GetPeerAddress (user : String)
  | SetStatus (status : Nat)
  | AddUser (user : String)
  | GetUserStatus (user : String)
  | PrivateRoomToggle (enabled : Bool)
deriving DecidableEq, Repr

/-- Presence away or offline status constants of slskmessages.UserStatus
(numeric values 0, 1, 2 in the source). -/
inductive UserStatus
  | OFFLINE
  | AWAY
  | ONLINE
deriving DecidableEq, Repr

/-- The slice of Core state read and written by watch_user: the presence
status, the watched_users set (modelled as a duplicate-free list, set.add
appends only when absent) and the outbound queue (deque, appended on the
right). -/
structure WatchState where
  user_status : UserStatus
  watched_users : List String
  queue : List QueueCmd
deriving DecidableEq, Repr

/-- Core.watch_user (core.py lines 446-462): no-op when offline, no-op
when the user is already watched and force_update is false, otherwise
append AddUser then GetUserStatus to the queue and add the user to
watched_users. -/
def watch_user (user : String) (force_update : Bool) (s : WatchState) : WatchState :=
  if s.user_status = UserStatus.OFFLINE then s
  else if force_update = false ∧ user ∈ s.watched_users then s
  else
    { s with
      queue := s.queue ++ [QueueCmd.AddUser user, QueueCmd.GetUserStatus user],
      watched_users :=
        if user ∈ s.watched_users then s.watched_users else s.watched_users ++ [user] }

/-- Core.request_change_password (core.py line 411-412): append a
ChangePassword command to Core.queue. -/
def request_change_password (password : String) (q : List QueueCmd) : List QueueCmd :=
  q ++ [QueueCmd.ChangePassword password]

/-- Core.request_set_status (core.py line 424-425): append a SetStatus
command to Core.queue. -/
def request_set_status (status : Nat) (q : List QueueCmd) : List QueueCmd :=
  q ++ [QueueCmd.SetStatus status]

/-- Inputs read by Core.connect (core.py lines 342-388): the protothread
flag and validation results, config.need_config(), and the config values
for the server address and credentials. -/
structure ConnectEnv where
  server_disconnected : Bool
  need_config : Bool
  valid_network_interface : Bool
  valid_listen_port : Bool
  server_addr : Addr
  login : String
  passw : String

/-- The log.add messages Core.connect can emit. -/
inductive ConnectLog
  | need_config_message
  | unknown_interface
  | port_unavailable
deriving DecidableEq, Repr

/-- Result of Core.connect: its return value, the state of Core.queue
after the call, the log entries emitted, the final value of
protothread.server_disconnected, and whether ui_callback.setup() was
invoked. -/
structure ConnectResult where
  ok : Bool
  queue : List QueueCmd
  logs : List ConnectLog
  server_disconnected : Bool
  setup_called : Bool
deriving DecidableEq, Repr

/-- Core.connect (core.py lines 342-388): return True at once when the
server is already connected; fail with a single log entry when the config
is incomplete, the configured network interface does not exist, or no
port of the configured listen range is usable; otherwise clear the queue,
mark the server as connected and enqueue a single ServerConnect command
carrying the configured address and (login, password). -/
def connect (env : ConnectEnv) (q : List QueueCmd) : ConnectResult :=
  if env.server_disconnected = false then
    { ok := true, queue := q, logs := [],
      server_disconnected := env.server_disconnected, setup_called := false }
  else if env.need_config then
    { ok := false, queue := q, logs := [ConnectLog.need_config_message],
      server_disconnected := env.server_disconnected, setup_called := true }
  else if env.valid_network_interface = false then
    { ok := false, queue := q, logs := [ConnectLog.unknown_interface],
      server_disconnected := env.server_disconnected, setup_called := false }
  else if env.valid_listen_port = false then
    { ok := false, queue := q, logs := [ConnectLog.port_unavailable],
      server_disconnected := env.server_disconnected, setup_called := false }
  else
    { ok := true,
      queue := [QueueCmd.ServerConnect env.server_addr (env.login, env.passw)],
      logs := [], server_disconnected := false, setup_called := false }

/-- Python str.split whitespace test: the code points for which Python
str.isspace returns True, and which str.split with no separator uses as
delimiters: tab through carriage return (9 to 13), the information
separators (28 to 31), space, next line (133), no-break space (160),
ogham space mark, the general punctuation spaces (0x2000 to 0x200A), the
line and paragraph separators, narrow no-break space, medium mathematical
space, and ideographic space. -/
def isPySpace (c : Char) : Bool :=
  let n := c.toNat
  (9 ≤ n && n ≤ 13) || (28 ≤ n && n ≤ 31) || n == 32 || n == 133 || n == 160
    || n == 0x1680 || (0x2000 ≤ n && n ≤ 0x200A) || n == 0x2028 || n == 0x2029
    || n == 0x202F || n == 0x205F || n == 0x3000

/-- Python user_input.split(maxsplit=1): strip leading whitespace; an all
whitespace string yields the empty list; otherwise the first whitespace
delimited token, and, when anything follows the whitespace run after it,
the remainder of the string as second element. -/
def split_maxsplit1 (s : String) : List String :=
  let cs := s.data.dropWhile isPySpace
  if cs = [] then []
  else
    let tok := cs.takeWhile (fun c => !(isPySpace c))
    let rest := (cs.dropWhile (fun c => !(isPySpace c))).dropWhile isPySpace
    if rest = [] then [String.mk tok] else [String.mk tok, String.mk rest]

/-- Result of input() in one iteration of Core.process_cli_input: either
end of file or a line of text. -/
inductive CLIInput
  | eof_signal
  | line (s : String)
deriving DecidableEq, Repr

/-- Outcome of one iteration of the loop body of Core.process_cli_input
(core.py lines 136-156).  cli_callback c a stands for the call
self.thread_callback with the one element batch containing
slskmessages.CLICommand(c, a); args is none when the split produced no
second element (the Python variable then holds the empty list, and the
consumer cli_command reads msg.args or the empty string). -/
inductive CLIResult
  | loop_exit
  | eof_return
  | skipped
  | value_error
  | cli_callback (command : String) (args : Option String)
deriving DecidableEq, Repr

/-- Python command.startswith with the slash character. -/
def startswith_slash (s : String) : Bool :=
  s.data.head? = some '/'

/-- One iteration of Core.process_cli_input (core.py lines 136-156).  The
second component of the result is the list of commands this iteration
appends to Core.queue: it is always empty, because the source delivers the
CLICommand through self.thread_callback and never touches self.queue.
Unpacking the empty result of splitting a nonempty all whitespace line
raises an uncaught ValueError. -/
def process_cli_line (shutdown : Bool) (input : CLIInput) : CLIResult × List QueueCmd :=
  if shutdown then (CLIResult.loop_exit, [])
  else
    match input with
    | CLIInput.eof_signal => (CLIResult.eof_return, [])
    | CLIInput.line s =>
      if s = "" then (CLIResult.skipped, [])
      else
        match split_maxsplit1 s with
        | [] => (CLIResult.value_error, [])
        | [command] =>
            let c := if startswith_slash command then command.drop 1 else command
            (CLIResult.cli_callback c none, [])
        | command :: arg :: _ =>
            let c := if startswith_slash command then command.drop 1 else command
            (CLIResult.cli_callback c (some arg), [])

/-- Split a character list on the slash character, keeping empty pieces,
as Python path.split with a slash separator does. -/
def splitSlash : List Char → List (List Char)
  | [] => [[]]
  | c :: rest =>
    let r := splitSlash rest
    if c = '/' then [] :: r
    else
      match r with
      | [] => [[c]]
      | h :: t => (c :: h) :: t

/-- The component loop of posixpath.normpath: fold the slash separated
components, skipping empty and dot components, resolving a dotdot
component against the accumulated stack.  The accumulator holds the
new_comps list reversed, so the Python new_comps append, last element read
and pop become cons, head and tail here. -/
def normpath_comps (initial_slashes : Nat) :
    List (List Char) → List (List Char) → List (List Char)
  | acc, [] => acc
  | acc, comp :: rest =>
    if comp = [] ∨ comp = ['.'] then normpath_comps initial_slashes acc rest
    else if comp ≠ ['.', '.'] ∨ (initial_slashes = 0 ∧ acc = [])
        ∨ (acc ≠ [] ∧ acc.head? = some ['.', '.']) then
      normpath_comps initial_slashes (comp :: acc) rest
    else
      match acc with
      | [] => normpath_comps initial_slashes [] rest
      | _ :: t => normpath_comps initial_slashes t rest

/-- Join character list components with slash separators. -/
def joinSlash : List (List Char) → List Char
  | [] => []
  | [c] => c
  | c :: rest => c ++ '/' :: joinSlash rest

/-- posixpath.normpath: collapse repeated slash characters and dot
components and resolve dotdot components, preserving the conventional
meaning of exactly two leading slash characters. -/
def normpath (s : String) : String :=
  if s = "" then "."
  else
    let cs := s.data
    let initial_slashes : Nat :=
      if cs.head? = some '/' then
        if cs.take 2 = ['/', '/'] ∧ ¬(cs.take 3 = ['/', '/', '/']) then 2 else 1
      else 0
    let newComps := (normpath_comps initial_slashes [] (splitSlash cs)).reverse
    let path := List.replicate initial_slashes '/' ++ joinSlash newComps
    if path = [] then "." else String.mk path

/-- posixpath.basename: everything after the last slash character. -/
def basename (s : String) : String :=
  String.mk ((s.data.reverse.takeWhile (fun c => c ≠ '/')).reverse)

/-- Python str.replace for a single character pattern and single character
replacement. -/
def pyReplace (s : String) (a b : Char) : String :=
  String.mk (s.data.map (fun c => if c = a then b else c))

/-- The virtual name computed in FastConfigure.on_add_share_selected
(fastconfigure.py lines 130-133): the base name of the normalised path,
with every slash and backslash replaced by an underscore. -/
def virtualOf (folder : String) : String :=
  pyReplace (pyReplace (basename (normpath folder)) '/' '_') '\\' '_'

/-- The while loop of fastconfigure.py lines 136-139, with explicit fuel.
The Python loop terminates because the candidates tried, namely virtual
followed by virtual with the successive decimal counters appended, are
pairwise distinct strings, so after taken.length + 1 iterations at least
one candidate lies outside the taken list; the fuel passed by
virtual_final_of is exactly that bound, hence the fuel exhaustion branch
is never the value actually returned. -/
def virtual_final_loop (virtual : String) (taken : List String) :
    String → Nat → Nat → String
  | vf, _counter, 0 => vf
  | vf, counter, fuel + 1 =>
    if vf ∈ taken then
      virtual_final_loop virtual taken (virtual ++ toString counter) (counter + 1) fuel
    else vf

/-- The deduplicated virtual name virtual_final computed (and then never
used) by FastConfigure.on_add_share_selected: append an increasing numeric
suffix until the name is outside the taken list. -/
def virtual_final_of (virtual : String) (taken : List String) : String :=
  virtual_final_loop virtual taken virtual 1 (taken.length + 1)

/-- The two containers FastConfigure.on_add_share_selected appends to: the
dialog list store rows (virtual name, folder) and the shared_folders list
of (virtual name, folder) pairs. -/
structure ShareState where
  sharelist : List (String × String)
  shared_folders : List (String × String)
deriving DecidableEq, Repr

/-- FastConfigure.on_add_share_selected (fastconfigure.py lines 119-143).
shared and buddy_shared are the configured lists of (virtual name, path)
pairs; selected is the list of chosen folders.  A folder whose path
already occurs among the configured paths makes the whole method return at
once.  Otherwise the source computes virtual, computes virtual_final by
appending a numeric suffix until distinct from the configured virtual
names, but then inserts and appends the pair built from virtual, not
virtual_final, exactly as on source lines 142-143. -/
def on_add_share_selected (shared buddy_shared : List (String × String)) :
    List String → ShareState → ShareState
  | [], st => st
  | folder :: rest, st =>
    if folder ∈ (shared ++ buddy_shared).map Prod.snd then st
    else
      let virtual := virtualOf folder
      let _virtual_final :=
        virtual_final_of virtual ((shared ++ buddy_shared).map Prod.fst)
      on_add_share_selected shared buddy_shared rest
        { sharelist := st.sharelist ++ [(virtual, folder)],
          shared_folders := st.shared_folders ++ [(virtual, folder)] }

/-- With the shutdown flag set on entry, the loop returns before touching
any message, so the event trace is empty. -/
theorem process_loop_shutdown_trace (eff : Handler → Msg → Bool → Bool)
    (msgs : List Msg) : (process_loop eff true msgs).1 = [] := by
  cases msgs <;> simp [process_loop]

/-- When no handler flips the shutdown flag, the loop runs to completion
and its trace is the dispatch of each message in batch order. -/
theorem process_loop_inert (eff : Handler → Msg → Bool → Bool)
    (heff : ∀ h m b, eff h m b = b) (msgs : List Msg) :
    process_loop eff false msgs = (msgs.map dispatch_event, false, true) := by
  induction msgs with
  | nil => rfl
  | cons m rest ih =>
    rcases hmc : message_callbacks m.cls with _ | h
    · simp [process_loop, hmc, dispatch_event, ih]
    · simp [process_loop, hmc, dispatch_event, heff, ih]

/-- Counting one handler invocation event inside a mapped dispatch trace:
it appears once per occurrence of the message, and only for the handler
the dictionary registers for the message class. -/
theorem count_handled_map (msgs : List Msg) (m : Msg) (h : Handler) :
    List.count (Event.handled h m) (msgs.map dispatch_event)
      = if message_callbacks m.cls = some h then msgs.count m else 0 := by
  induction msgs with
  | nil => simp
  | cons a rest ih =>
    by_cases ham : a = m
    · subst ham
      by_cases hmc : message_callbacks a.cls = some h
      · simp [List.count_cons, dispatch_event, hmc, ih]
      · have hne : dispatch_event a ≠ Event.handled h a := by
          unfold dispatch_event
          rcases hx : message_callbacks a.cls with _ | h2
          · simp
          · simp only [Event.handled.injEq, ne_eq, not_and]
            intro he
            exact absurd (hx.trans (by rw [he])) hmc
        simp [List.count_cons, hne, hmc, ih]
    · have hne : dispatch_event a ≠ Event.handled h m := by
        unfold dispatch_event
        rcases hx : message_callbacks a.cls with _ | h2 <;> simp
        intro _
        exact ham
      simp [List.count_cons, hne, ham, ih]

/-- Claim C1: for every delivered message batch (with the shutdown flag
left untouched by the handlers), Core.process_thread_callback dispatches
each message to exactly the handler registered for the message class in
the message_callbacks mapping, invoking that handler once per occurrence
of the message, with the message itself as argument: the trace contains
the invocation event of handler h on message m exactly count-of-m times
when h is the registered handler for the class of m, and never
otherwise. -/
theorem C1_dispatch_exactly_registered (eff : Handler → Msg → Bool → Bool)
    (heff : ∀ h m b, eff h m b = b) (msgs : List Msg) (m : Msg) (h : Handler) :
    List.count (Event.handled h m) (process_thread_callback eff false msgs).1
      = if message_callbacks m.cls = some h then msgs.count m else 0 := by
  unfold process_thread_callback
  rw [process_loop_inert eff heff]
  exact count_handled_map msgs m h

/-- Witness for C1 at a concrete two message batch. -/
theorem C1_dispatch_exactly_registered_witness :
    List.count (Event.handled Handler.login ⟨MsgClass.Login, 0⟩)
      (process_thread_callback (fun _ _ b => b) false
        [⟨MsgClass.Login, 0⟩, ⟨MsgClass.SayChatroom, 1⟩]).1 = 1 := by
  have h := C1_dispatch_exactly_registered (fun _ _ b => b) (fun _ _ _ => rfl)
      [⟨MsgClass.Login, 0⟩, ⟨MsgClass.SayChatroom, 1⟩] ⟨MsgClass.Login, 0⟩ Handler.login
  rw [h]
  decide

/-- Claim C2: with the shutdown flag unset (and not set by any handler of
the batch), the handlers of a batch whose classes are all registered are
invoked in exactly the order the messages appear, each occurrence exactly
once (the trace is the pointwise image of the batch), and the batch
container is cleared after the last message is processed. -/
theorem C2_order_once_cleared (eff : Handler → Msg → Bool → Bool)
    (heff : ∀ h m b, eff h m b = b) (msgs : List Msg)
    (hreg : ∀ m ∈ msgs, (message_callbacks m.cls).isSome = true) :
    process_thread_callback eff false msgs
      = (msgs.map (fun m =>
            Event.handled ((message_callbacks m.cls).getD Handler.dummy_message) m),
         false, []) := by
  unfold process_thread_callback
  rw [process_loop_inert eff heff]
  simp only [Prod.mk.injEq, and_true, if_true, and_self, true_and]
  apply List.map_congr_left
  intro m hm
  rcases hs : message_callbacks m.cls with _ | h
  · exact absurd (hreg m hm) (by simp [hs])
  · simp [dispatch_event, hs]

/-- Witness for C2 at a concrete batch. -/
theorem C2_order_once_cleared_witness :
    process_thread_callback (fun _ _ b => b) false
        [⟨MsgClass.Login, 0⟩, ⟨MsgClass.SayChatroom, 1⟩]
      = ([Event.handled Handler.login ⟨MsgClass.Login, 0⟩,
          Event.handled Handler.chatrooms_say_chat_room ⟨MsgClass.SayChatroom, 1⟩],
         false, []) := by
  have h := C2_order_once_cleared (fun _ _ b => b) (fun _ _ _ => rfl)
      [⟨MsgClass.Login, 0⟩, ⟨MsgClass.SayChatroom, 1⟩] (by decide)
  rw [h]
  decide

/-- Claim C3: Core.quit sets the shutdown flag; while the networking
thread exists, quit aborts it and then synthesizes a server_disconnect
notification before returning (the two actions occur adjacently inside
the action list of quit); the flag is checked before each message is
dispatched, so a call entered with the flag set invokes no handler at
all, and a handler that sets the flag mid batch stops every later
dispatch of that same call. -/
theorem C3_shutdown_protocol (s : CoreQuitState) (hs : s.has_protothread = true) :
    ((quit s).1.shutdown = true)
  ∧ (∃ l r, (quit s).2
        = l ++ [QuitAction.protothread_abort, QuitAction.server_disconnect_call] ++ r)
  ∧ (∀ (eff : Handler → Msg → Bool → Bool) (msgs : List Msg),
        (process_thread_callback eff true msgs).1 = [])
  ∧ (∀ (eff : Handler → Msg → Bool → Bool) (m : Msg) (rest : List Msg) (h : Handler),
        message_callbacks m.cls = some h → eff h m false = true →
        (process_thread_callback eff false (m :: rest)).1 = [Event.handled h m]) := by
  refine ⟨rfl, ?_, ?_, ?_⟩
  · refine ⟨[QuitAction.log_quitting]
        ++ (if s.has_pluginhandler then [QuitAction.pluginhandler_quit] else []),
      (if s.has_transfers then [QuitAction.transfers_quit] else [])
        ++ (if s.has_shares then [QuitAction.shares_quit] else [])
        ++ (if s.has_ui_callback then [QuitAction.ui_callback_quit] else [])
        ++ [QuitAction.log_quit_done, QuitAction.close_log_files], ?_⟩
    simp [quit, hs, List.append_assoc]
  · intro eff msgs
    unfold process_thread_callback
    simp [process_loop_shutdown_trace]
  · intro eff m rest h hmc heff
    unfold process_thread_callback
    simp [process_loop, hmc, heff, process_loop_shutdown_trace]

/-- Witness for C3 with all components present. -/
theorem C3_shutdown_protocol_witness :
    (quit { shutdown := false, has_pluginhandler := true, has_protothread := true,
            has_transfers := true, has_shares := true,
            has_ui_callback := true }).1.shutdown = true
  ∧ (process_thread_callback (fun _ _ b => b) true [⟨MsgClass.Login, 0⟩]).1 = [] := by
  have h := C3_shutdown_protocol
      { shutdown := false, has_pluginhandler := true, has_protothread := true,
        has_transfers := true, has_shares := true, has_ui_callback := true } rfl
  exact ⟨h.1, h.2.2.1 (fun _ _ b => b) [⟨MsgClass.Login, 0⟩]⟩

/-- Claim C4 as amended: when a message class is absent from the
message_callbacks dictionary, the KeyError raised by the lookup is caught
inside the loop (the function stays total here), the diagnostic is
logged, and processing continues: the trace of the whole batch is the
diagnostic event followed by exactly the trace of the remaining
messages. -/
theorem C4_missing_handler_logged_continue (eff : Handler → Msg → Bool → Bool)
    (m : Msg) (rest : List Msg) (hnone : message_callbacks m.cls = none) :
    (process_thread_callback eff false (m :: rest)).1
      = Event.no_handler_logged m :: (process_thread_callback eff false rest).1 := by
  unfold process_thread_callback
  simp [process_loop, hnone]

/-- Witness for C4 with an unregistered class followed by a registered
one. -/
theorem C4_missing_handler_logged_continue_witness :
    message_callbacks MsgClass.SetStatus = none
  ∧ (process_thread_callback (fun _ _ b => b) false
        [⟨MsgClass.SetStatus, 0⟩, ⟨MsgClass.Login, 1⟩]).1
      = Event.no_handler_logged ⟨MsgClass.SetStatus, 0⟩
        :: (process_thread_callback (fun _ _ b => b) false [⟨MsgClass.Login, 1⟩]).1 :=
  ⟨rfl, C4_missing_handler_logged_continue (fun _ _ b => b) ⟨MsgClass.SetStatus, 0⟩
      [⟨MsgClass.Login, 1⟩] rfl⟩

/-- Counterexample to C4 as stated: an unknown peer message does have a
registered handler, namely dummy_message; processing it invokes that
handler and logs no diagnostic. -/
theorem C4_counterexample_unknown_peer_message :
    message_callbacks MsgClass.UnknownPeerMessage = some Handler.dummy_message
  ∧ (process_thread_callback (fun _ _ b => b) false
        [⟨MsgClass.UnknownPeerMessage, 0⟩]).1
      = [Event.handled Handler.dummy_message ⟨MsgClass.UnknownPeerMessage, 0⟩]
  ∧ Event.no_handler_logged ⟨MsgClass.UnknownPeerMessage, 0⟩
      ∉ (process_thread_callback (fun _ _ b => b) false
          [⟨MsgClass.UnknownPeerMessage, 0⟩]).1 := by
  decide

/-- A line whose whitespace split is attempted never splits to the empty
list unless it is all whitespace. -/
theorem split_maxsplit1_ne_nil (s : String)
    (h : s.data.dropWhile isPySpace ≠ []) : split_maxsplit1 s ≠ [] := by
  intro hc
  simp only [split_maxsplit1] at hc
  rw [if_neg h] at hc
  split at hc <;> simp at hc

/-- Claim C5 as amended: every line read by the CLI input thread that
contains at least one non whitespace character is translated into a typed
CLICommand and delivered as a one element batch through
Core.thread_callback, while Core.queue receives nothing. -/
theorem C5_cli_line_via_thread_callback (s : String)
    (hne : s.data.any (fun c => !(isPySpace c)) = true) :
    ∃ c a, process_cli_line false (CLIInput.line s)
      = (CLIResult.cli_callback c a, []) := by
  have hsne : s ≠ "" := by
    intro h
    subst h
    simp at hne
  have hcs : s.data.dropWhile isPySpace ≠ [] := by
    intro hnil
    rw [List.dropWhile_eq_nil_iff] at hnil
    rw [List.any_eq_true] at hne
    obtain ⟨c, hc, hcp⟩ := hne
    have hsp := hnil c hc
    rw [hsp] at hcp
    simp at hcp
  have hsplit := split_maxsplit1_ne_nil s hcs
  rcases hsp : split_maxsplit1 s with _ | ⟨c0, _ | ⟨a0, tail⟩⟩
  · exact absurd hsp hsplit
  · refine ⟨if startswith_slash c0 then c0.drop 1 else c0, none, ?_⟩
    simp [process_cli_line, hsne, hsp]
  · refine ⟨if startswith_slash c0 then c0.drop 1 else c0, some a0, ?_⟩
    simp [process_cli_line, hsne, hsp]

/-- Witness for C5 at a concrete line. -/
theorem C5_cli_line_via_thread_callback_witness :
    "hello".data.any (fun c => !(isPySpace c)) = true
  ∧ ∃ c a, process_cli_line false (CLIInput.line "hello")
      = (CLIResult.cli_callback c a, []) :=
  ⟨by decide, C5_cli_line_via_thread_callback "hello" (by decide)⟩

/-- Counterexample to C5 as stated: the line of text hello is translated
into a CLICommand batch handed to thread_callback while nothing is
appended to Core.queue (the claim says the command is pushed onto
Core.queue), and a nonempty all whitespace line (a space, or the file
separator control character 28, which Python str.split also treats as
whitespace) is not translated into any command at all: splitting it
yields the empty list and unpacking that raises ValueError. -/
theorem C5_counterexample_queue_untouched :
    process_cli_line false (CLIInput.line "hello")
      = (CLIResult.cli_callback "hello" none, [])
  ∧ process_cli_line false (CLIInput.line " ") = (CLIResult.value_error, [])
  ∧ process_cli_line false (CLIInput.line "\x1c") = (CLIResult.value_error, []) := by
  decide

/-- Element access for a list extended on the right with two elements. -/
theorem append_pair_getElem (l : List QueueCmd) (a b : QueueCmd) :
    (l ++ [a, b])[l.length]? = some a ∧ (l ++ [a, b])[l.length + 1]? = some b := by
  induction l with
  | nil => exact ⟨rfl, rfl⟩
  | cons x xs ih => simpa using ih

/-- Claim C6: Core.queue is FIFO under the append model of deque: a single
watch_user call that proceeds appends AddUser then GetUserStatus, with the
AddUser entry strictly before the GetUserStatus entry, and any two action
methods called in sequence (here request_change_password followed by
request_set_status) leave their commands in submission order. -/
theorem C6_queue_fifo (s : WatchState) (u : String) (q : List QueueCmd)
    (p : String) (st : Nat)
    (hon : s.user_status ≠ UserStatus.OFFLINE) (hw : u ∉ s.watched_users) :
    ((watch_user u false s).queue
        = s.queue ++ [QueueCmd.AddUser u, QueueCmd.GetUserStatus u]
      ∧ ∃ i j : Nat, i < j
          ∧ (watch_user u false s).queue[i]? = some (QueueCmd.AddUser u)
          ∧ (watch_user u false s).queue[j]? = some (QueueCmd.GetUserStatus u))
  ∧ request_set_status st (request_change_password p q)
      = q ++ [QueueCmd.ChangePassword p, QueueCmd.SetStatus st] := by
  have hq : (watch_user u false s).queue
      = s.queue ++ [QueueCmd.AddUser u, QueueCmd.GetUserStatus u] := by
    simp [watch_user, hon, hw]
  refine ⟨⟨hq, ?_⟩, ?_⟩
  · refine ⟨s.queue.length, s.queue.length + 1, Nat.lt_succ_self _, ?_, ?_⟩
    · rw [hq]
      exact (append_pair_getElem s.queue _ _).1
    · rw [hq]
      exact (append_pair_getElem s.queue _ _).2
  · simp [request_change_password, request_set_status]

/-- Witness for C6 at a concrete state. -/
theorem C6_queue_fifo_witness :
    (watch_user "alice" false
        { user_status := UserStatus.ONLINE, watched_users := [], queue := [] }).queue
      = [QueueCmd.AddUser "alice", QueueCmd.GetUserStatus "alice"] := by
  have h := C6_queue_fifo
      { user_status := UserStatus.ONLINE, watched_users := [], queue := [] }
      "alice" [] "pw" 1 (by decide) (by decide)
  simpa using h.1.1

/-- Claim C7: with the server disconnected and the config complete, an
invalid network interface, or a valid interface with no usable listen
port, makes Core.connect emit exactly one log entry, return False, and
leave the queue unchanged, so no ServerConnect command is appended; the
method returns rather than retrying. -/
theorem C7_fatal_config_failure (env : ConnectEnv) (q : List QueueCmd)
    (hdis : env.server_disconnected = true) (hcfg : env.need_config = false) :
    (env.valid_network_interface = false →
        connect env q
          = { ok := false, queue := q, logs := [ConnectLog.unknown_interface],
              server_disconnected := true, setup_called := false })
  ∧ (env.valid_network_interface = true → env.valid_listen_port = false →
        connect env q
          = { ok := false, queue := q, logs := [ConnectLog.port_unavailable],
              server_disconnected := true, setup_called := false }) := by
  constructor
  · intro hni
    simp [connect, hdis, hcfg, hni]
  · intro hni hlp
    simp [connect, hdis, hcfg, hni, hlp]

/-- Witness for C7 with an invalid interface. -/
theorem C7_fatal_config_failure_witness :
    connect { server_disconnected := true, need_config := false,
              valid_network_interface := false, valid_listen_port := true,
              server_addr := ("server.slsknet.org", 2242),
              login := "u", passw := "p" } [QueueCmd.CheckPrivileges]
      = { ok := false, queue := [QueueCmd.CheckPrivileges],
          logs := [ConnectLog.unknown_interface],
          server_disconnected := true, setup_called := false } :=
  (C7_fatal_config_failure
      { server_disconnected := true, need_config := false,
        valid_network_interface := false, valid_listen_port := true,
        server_addr := ("server.slsknet.org", 2242), login := "u", passw := "p" }
      [QueueCmd.CheckPrivileges] rfl rfl).1 rfl

/-- Claim C8: Core.connect returns True and leaves the queue unchanged
when the server is already connected, and on a proceeding attempt it
clears the queue first, so after a successful call the queue holds exactly
the one ServerConnect command with the configured address and the
configured (login, password) pair. -/
theorem C8_connect_frame_effect (env : ConnectEnv) (q : List QueueCmd) :
    (env.server_disconnected = false →
        connect env q
          = { ok := true, queue := q, logs := [],
              server_disconnected := false, setup_called := false })
  ∧ (env.server_disconnected = true → env.need_config = false →
     env.valid_network_interface = true → env.valid_listen_port = true →
        connect env q
          = { ok := true,
              queue := [QueueCmd.ServerConnect env.server_addr (env.login, env.passw)],
              logs := [], server_disconnected := false, setup_called := false }) := by
  constructor
  · intro hdis
    simp [connect, hdis]
  · intro hdis hcfg hni hlp
    simp [connect, hdis, hcfg, hni, hlp]

/-- Witness for C8 on the successful path. -/
theorem C8_connect_frame_effect_witness :
    connect { server_disconnected := true, need_config := false,
              valid_network_interface := true, valid_listen_port := true,
              server_addr := ("server.slsknet.org", 2242),
              login := "u", passw := "p" } [QueueCmd.CheckPrivileges]
      = { ok := true,
          queue := [QueueCmd.ServerConnect ("server.slsknet.org", 2242) ("u", "p")],
          logs := [], server_disconnected := false, setup_called := false } :=
  (C8_connect_frame_effect
      { server_disconnected := true, need_config := false,
        valid_network_interface := true, valid_listen_port := true,
        server_addr := ("server.slsknet.org", 2242), login := "u", passw := "p" }
      [QueueCmd.CheckPrivileges]).2 rfl rfl rfl rfl

/-- Claim C9: watch_user changes nothing when offline; changes nothing
when the user is already watched and force_update is false; otherwise
appends AddUser then GetUserStatus and adds the user to watched_users
(stated membership wise, matching set.add); and the force_update false
call is idempotent. -/
theorem C9_watch_user_guarded_idempotent (s : WatchState) (u : String) :
    (s.user_status = UserStatus.OFFLINE → ∀ f, watch_user u f s = s)
  ∧ (u ∈ s.watched_users → watch_user u false s = s)
  ∧ (s.user_status ≠ UserStatus.OFFLINE → ∀ f, (f = true ∨ u ∉ s.watched_users) →
        (watch_user u f s).queue
            = s.queue ++ [QueueCmd.AddUser u, QueueCmd.GetUserStatus u]
      ∧ (∀ v, v ∈ (watch_user u f s).watched_users ↔ v = u ∨ v ∈ s.watched_users))
  ∧ watch_user u false (watch_user u false s) = watch_user u false s := by
  refine ⟨?_, ?_, ?_, ?_⟩
  · intro hoff f
    simp [watch_user, hoff]
  · intro hw
    by_cases hoff : s.user_status = UserStatus.OFFLINE
    · simp [watch_user, hoff]
    · simp [watch_user, hoff, hw]
  · intro hon f hf
    have hcond : ¬(f = false ∧ u ∈ s.watched_users) := by
      rcases hf with hf | hf
      · simp [hf]
      · simp [hf]
    constructor
    · simp [watch_user, hon, hcond]
    · intro v
      by_cases hw : u ∈ s.watched_users
      · have hfv : f = true := by
          rcases hf with hf | hf
          · exact hf
          · exact absurd hw hf
        simp only [watch_user, if_neg hon, hfv]
        simp [hw]
        intro hv
        rw [hv]
        exact hw
      · simp only [watch_user, if_neg hon]
        rw [if_neg hcond]
        simp [hw]
        tauto
  · by_cases hoff : s.user_status = UserStatus.OFFLINE
    · simp [watch_user, hoff]
    · by_cases hw : u ∈ s.watched_users
      · simp [watch_user, hoff, hw]
      · have h1 : watch_user u false s
            = { s with
                queue := s.queue ++ [QueueCmd.AddUser u, QueueCmd.GetUserStatus u],
                watched_users := s.watched_users ++ [u] } := by
          simp [watch_user, hoff, hw]
        rw [h1]
        simp [watch_user, hoff]

/-- Witness for C9: idempotence at a concrete online state. -/
theorem C9_watch_user_guarded_idempotent_witness :
    watch_user "alice" false (watch_user "alice" false
        { user_status := UserStatus.ONLINE, watched_users := [], queue := [] })
      = watch_user "alice" false
        { user_status := UserStatus.ONLINE, watched_users := [], queue := [] } :=
  (C9_watch_user_guarded_idempotent
      { user_status := UserStatus.ONLINE, watched_users := [], queue := [] }
      "alice").2.2.2

/-- Claim C10, evaluating FastConfigure.on_add_share_selected at the
failing input: with the configured share (music, /home/a/music), selecting
/home/b/music appends the pair (music, /home/b/music), whose virtual name
music collides with the configured virtual name music, although the
deduplicated name the method itself computes (and then discards) is
music1; a selected folder whose path is already configured is, as the
claim says, never added. -/
theorem C10_virtual_name_collision :
    (on_add_share_selected [("music", "/home/a/music")] [] ["/home/b/music"]
        { sharelist := [], shared_folders := [] }).shared_folders
      = [("music", "/home/b/music")]
  ∧ "music" ∈ ([("music", "/home/a/music")] : List (String × String)).map Prod.fst
  ∧ virtual_final_of "music" ["music"] = "music1"
  ∧ on_add_share_selected [("m", "/p/q")] [] ["/p/q"]
        { sharelist := [], shared_folders := [] }
      = { sharelist := [], shared_folders := [] } := by
  decide

end NicotinePlus
